import Mathlib

/-!
Shallow embedding of the DLMS reader transaction engine from
`GXDLMSReader.go` (Gurux/examples-go).  The external collaborators
(transport media and protocol codec) are modelled as oracles: functions
from a call index to the outcome the collaborator produces at that call.
Ghost instrumentation (an action trace and call counters in `Env`) records
the observable effects - transport sends and receives, accumulator clears,
continuation-frame builds, the back-off sleep, value application - without
influencing control flow.  Loops and the recursive rejected-retry are
driven by an explicit fuel parameter; running out of fuel yields the
distinguished `Outcome.fuelOut`, modelling non-termination within the
given bound.
-/

namespace GxReader

/-- One observable effect of the reader on its collaborators.  `packet`
and `block` are ghost markers recorded at the entry of `ReadDLMSPacket`
and `ReadDataBlock` respectively, used to count invocations. -/
inductive Action where
  | send (frame : Option (List Nat))
  | recv
  | packet (frame : Option (List Nat))
  | block (frame : Option (List Nat))
  | clearAcc
  | rrBuild (frame : List Nat)
  | sleep
  | notifyCb
  | updateValues (list : List (Nat × Nat)) (values : List Nat)
  | mediaClose
  deriving Repr, DecidableEq

/-- Ghost state threaded through the embedding: oracle call counters,
effect counters and the ordered action trace. -/
structure Env where
  recvCtr : Nat := 0
  parseCtr : Nat := 0
  rrCtr : Nat := 0
  sendCount : Nat := 0
  blockCalls : Nat := 0
  updCalls : Nat := 0
  trace : List Action := []
  deriving Repr, DecidableEq

/-- Append one action to the trace. -/
def Env.log (e : Env) (a : Action) : Env := { e with trace := e.trace ++ [a] }

/-- Result of one `media.Receive` call: a transport error, a timeout
(`succeeded = false`), or received bytes (`succeeded = true`). -/
inductive RecvStep where
  | fail (msg : String)
  | timeout
  | bytes (bs : List Nat)
  deriving Repr, DecidableEq

/-- The observable fields of `dlms.GXReplyData` (the reply accumulator):
`error` is `reply.Error`, `dataSize` is `reply.Data.Size()`, `moreData`
is `reply.IsMoreData()`, `streaming` is `reply.IsStreaming()`, and
`value` is `reply.Value` when it is castable to `[]any` (decoded values
are opaque and numbered). -/
structure ReplyState where
  error : Nat := 0
  dataSize : Nat := 0
  moreData : Bool := false
  streaming : Bool := false
  value : Option (List Nat) := none
  deriving Repr, DecidableEq

/-- Model of `reply.Clear()` / a freshly allocated `dlms.NewGXReplyData()`. -/
def ReplyState.clear : ReplyState := {}

/-- Outcome of one `client.GetData` call: an optional decode error,
the completeness flag, the accumulator state after the call, and the
notification accumulator's flags. -/
structure ParseStep where
  fail : Option String := none
  complete : Bool := true
  reply : ReplyState := {}
  notifyComplete : Bool := false
  notifyMoreData : Bool := false
  deriving Repr, DecidableEq

/-- Oracles for the external collaborators: receive and parse results by
call index, receiver-ready continuation frames by call index, send
failures by send index, the codec's frame-size hint, and the outcomes of
the teardown-related builders. -/
structure Oracle where
  recv : Nat → RecvStep
  parse : Nat → ParseStep
  rr : Nat → Except String (List Nat)
  sendFail : Nat → Option String
  frameSize : Nat
  discReq : Except String (Option (List Nat))
  releaseFrames : Except String (Option (List (List Nat)))
  rlFrames : Except String (List (List Nat))
  updValFail : Option String
  closeFail : Option String

/-- Static reader and client configuration read by the transaction
engine: the retry bound `r.RetryCount`, whether the interface type is
HDLC-framed (supplies the `0x7E` end-of-packet marker), the connection
state and pre-established-connection flags, and the flags deciding
whether `Release` builds a release request. -/
structure Config where
  retryCount : Nat := 3
  hdlc : Bool := true
  connStateNone : Bool := false
  preEstablished : Bool := false
  interfaceWrapper : Bool := false
  securityNone : Bool := true
  hasNotify : Bool := false
  deriving Repr, DecidableEq

/-- Result of a reader operation: success, a Go error with its message,
the decoded device-error (`fmt.Errorf("dlms error %s", ...)`, carrying
the code), a runtime panic (failed type assertion), or fuel exhaustion
(the modelled loop did not terminate within the bound). -/
inductive Outcome where
  | ok
  | err (msg : String)
  | errDlms (code : Nat)
  | panic
  | fuelOut
  deriving Repr, DecidableEq

/-- The code `enums.ErrorCodeRejected`.  Only its identity matters to the reader
logic; the numeric value is a representative nonzero code. -/
def errorCodeRejected : Nat := 3

/-- Result of `ReadDLMSPacket` / `ReadDataBlock`: outcome, final
accumulator state and final ghost state. -/
structure PRes where
  out : Outcome
  reply : ReplyState
  env : Env
  deriving Repr, DecidableEq

/-- The first send/receive loop of `ReadDLMSPacket`
(`for !succeeded && attempt != 3`, lines 371-397): exits when a receive
succeeds or when `attempt` reaches the literal 3; the body is skipped
entirely while the accumulator is streaming; a failed receive increments
`attempt` and returns the transport-exhausted error once
`attempt >= r.RetryCount`, else shrinks the expected count to 1 when no
end-of-packet marker is set and resends. -/
def firstLoop (cfg : Config) (orc : Oracle) (data : Option (List Nat))
    (streaming : Bool) (eopNone : Bool) :
    Nat → Nat → Option (List Nat) → Nat → Env →
      Except (Outcome × Env) (Option (List Nat) × Nat × Env)
  | 0, attempt, pReply, pCount, env =>
    if attempt == 3 then .ok (pReply, pCount, env)
    else .error (.fuelOut, env)
  | fuel + 1, attempt, pReply, pCount, env =>
    if attempt == 3 then .ok (pReply, pCount, env)
    else
      if streaming then
        firstLoop cfg orc data streaming eopNone fuel attempt pReply pCount env
      else if (data.getD []).isEmpty then
        .error (.err "packet is empty", env)
      else
        let env1 := { env.log (Action.send data) with sendCount := env.sendCount + 1 }
        match orc.sendFail env.sendCount with
        | some m => .error (.err m, env1)
        | none =>
          let env2 := { env1.log Action.recv with recvCtr := env1.recvCtr + 1 }
          match orc.recv env1.recvCtr with
          | .fail m => .error (.err m, env2)
          | .bytes bs => .ok (some (pReply.getD [] ++ bs), pCount, env2)
          | .timeout =>
            if cfg.retryCount ≤ attempt + 1 then
              .error (.err "failed to receive reply from the device in given time", env2)
            else
              firstLoop cfg orc data streaming eopNone fuel (attempt + 1) pReply
                (if eopNone then 1 else pCount) env2

/-- The inner receive-retry loop of `ReadDLMSPacket` (lines 423-441):
receive until success; each timeout increments `attempt`, fails with the
transport-exhausted error once `attempt >= r.RetryCount`, resets
`p.Reply` to nil and resends the original frame. -/
def recvLoop (cfg : Config) (orc : Oracle) (data : Option (List Nat)) :
    Nat → Nat → Option (List Nat) → Env →
      Except (Outcome × Env) (Nat × List Nat × Env)
  | 0, _attempt, _pReply, env => .error (.fuelOut, env)
  | fuel + 1, attempt, pReply, env =>
    let env1 := { env.log Action.recv with recvCtr := env.recvCtr + 1 }
    match orc.recv env.recvCtr with
    | .fail m => .error (.err m, env1)
    | .bytes bs => .ok (attempt, pReply.getD [] ++ bs, env1)
    | .timeout =>
      if cfg.retryCount ≤ attempt + 1 then
        .error (.err "failed to receive reply from the device in given time", env1)
      else
        let env2 := { env1.log (Action.send data) with sendCount := env1.sendCount + 1 }
        match orc.sendFail env1.sendCount with
        | some m => .error (.err m, env2)
        | none => recvLoop cfg orc data fuel (attempt + 1) none env2

/-- The notification dispatch point inside the reassembly loop (lines
414-419): when the notification accumulator is complete and not itself
continuing, dispatch it to the registered callback (and clear it). -/
def notifyEnv (cfg : Config) (step : ParseStep) (e : Env) : Env :=
  if step.notifyComplete && !step.notifyMoreData then
    if cfg.hasNotify then e.log Action.notifyCb else e
  else e

/-- The COSEM reassembly loop of `ReadDLMSPacket` (lines 404-446): ask
`client.GetData` to parse the rolling buffer; stop when complete;
dispatch a fully formed non-continuing notification to the registered
callback; recompute the expected count when no marker exists; receive
more bytes with the bounded-retry policy and append them. -/
def getDataLoop (cfg : Config) (orc : Oracle) (data : Option (List Nat))
    (eopNone : Bool) :
    Nat → ReplyState → Nat → Nat → Option (List Nat) → List Nat → Env →
      Except (Outcome × Env) (ReplyState × Env)
  | 0, _reply, _attempt, _pCount, _pReply, _rd, env => .error (.fuelOut, env)
  | fuel + 1, _reply, attempt, pCount, pReply, rd, env =>
    let step := orc.parse env.parseCtr
    let env1 := { env with parseCtr := env.parseCtr + 1 }
    match step.fail with
    | some m => .error (.err m, env1)
    | none =>
      if step.complete then .ok (step.reply, env1)
      else
        let env2 := notifyEnv cfg step env1
        let pCount1 := if eopNone then orc.frameSize else pCount
        match recvLoop cfg orc data fuel attempt pReply env2 with
        | .error r => .error r
        | .ok (attempt1, bs, env3) =>
          getDataLoop cfg orc data eopNone fuel step.reply attempt1 pCount1
            (some bs) (rd ++ bs) env3

/-- One pass of the body of `ReadDLMSPacket` after the nil checks
(lines 351-455 minus the rejected recursion): resets `reply.Error`,
derives the end-of-packet marker from the interface type, runs the two
receive loops, and classifies the completed reply.  `Sum.inr` signals a
completed reply carrying the `rejected` code: back off (log the sleep)
and ask the caller to re-run the whole exchange. -/
def exchangeCore (cfg : Config) (orc : Oracle) (fuel : Nat)
    (data : Option (List Nat)) (reply0 : ReplyState) (env : Env) :
    PRes ⊕ (ReplyState × Env) :=
  let reply := { reply0 with error := 0 }
  let eopNone := !cfg.hdlc
  match firstLoop cfg orc data reply.streaming eopNone fuel 0 none orc.frameSize env with
  | .error (o, env1) => .inl ⟨o, reply, env1⟩
  | .ok (pReply, pCount, env1) =>
    match pReply with
    | none => .inl ⟨.panic, reply, env1⟩
    | some bs =>
      match getDataLoop cfg orc data eopNone fuel reply 0 pCount (some bs) bs env1 with
      | .error (o, env2) => .inl ⟨o, reply, env2⟩
      | .ok (reply2, env2) =>
        if reply2.error == 0 then .inl ⟨.ok, reply2, env2⟩
        else if reply2.error == errorCodeRejected then
          .inr (reply2, env2.log Action.sleep)
        else .inl ⟨.errDlms reply2.error, reply2, env2⟩

/-- Model of `ReadDLMSPacket` (lines 343-456): nil accumulator is an immediate
error; a nil frame with a non-streaming accumulator returns success
immediately; otherwise run the exchange, and on a completed reply
carrying the `rejected` error code sleep and re-run the entire exchange
recursively with the same frame. -/
def ReadDLMSPacket (cfg : Config) (orc : Oracle) :
    Nat → Option (List Nat) → Option ReplyState → Env → PRes
  | 0, data, replyOpt, env0 =>
    let env := env0.log (Action.packet data)
    match replyOpt with
    | none => ⟨.err "reply is nil", ReplyState.clear, env⟩
    | some reply =>
      if data.isNone && !reply.streaming then ⟨.ok, reply, env⟩
      else
        match exchangeCore cfg orc 0 data reply env with
        | .inl r => r
        | .inr (reply2, env2) => ⟨.fuelOut, reply2, env2⟩
  | fuel + 1, data, replyOpt, env0 =>
    let env := env0.log (Action.packet data)
    match replyOpt with
    | none => ⟨.err "reply is nil", ReplyState.clear, env⟩
    | some reply =>
      if data.isNone && !reply.streaming then ⟨.ok, reply, env⟩
      else
        match exchangeCore cfg orc (fuel + 1) data reply env with
        | .inl r => r
        | .inr (reply2, env2) => ReadDLMSPacket cfg orc fuel data (some reply2) env2

/-- The continuation condition of `ReadDataBlock`'s loop (lines
480-482): more data is pending and the connection is active or
pre-established, or the accumulator has error code zero and zero data
bytes. -/
def dbCond (cfg : Config) (r : ReplyState) : Bool :=
  (r.moreData && (!cfg.connStateNone || cfg.preEstablished)) ||
    (r.error == 0 && r.dataSize == 0)

/-- Ghost state update at a receiver-ready build: consume one
receiver-ready oracle step and log the built frame. -/
def rrEnv (f : List Nat) (env : Env) : Env :=
  ({ env with rrCtr := env.rrCtr + 1 }).log (Action.rrBuild f)

/-- Ghost state update at `ReadDataBlock` entry: count and log the
per-block-exchange invocation. -/
def blockEnv (data : Option (List Nat)) (env : Env) : Env :=
  { env.log (Action.block data) with blockCalls := env.blockCalls + 1 }

/-- The continuation loop of `ReadDataBlock` (lines 480-495): while the
condition holds, choose the next outbound frame - nil when streaming,
else a receiver-ready frame built by the codec - and run the Frame
Transaction again. -/
def dataBlockLoop (cfg : Config) (orc : Oracle) :
    Nat → ReplyState → Env → PRes
  | 0, reply, env =>
    if dbCond cfg reply then ⟨.fuelOut, reply, env⟩ else ⟨.ok, reply, env⟩
  | fuel + 1, reply, env =>
    if dbCond cfg reply then
      if reply.streaming then
        match ReadDLMSPacket cfg orc (fuel + 1) none (some reply) env with
        | ⟨.ok, reply1, env1⟩ => dataBlockLoop cfg orc fuel reply1 env1
        | r => r
      else
        match orc.rr env.rrCtr with
        | .error m => ⟨.err m, reply, { env with rrCtr := env.rrCtr + 1 }⟩
        | .ok f =>
          match ReadDLMSPacket cfg orc (fuel + 1) (some f) (some reply) (rrEnv f env) with
          | ⟨.ok, reply1, env1⟩ => dataBlockLoop cfg orc fuel reply1 env1
          | r => r
    else ⟨.ok, reply, env⟩

/-- Model of `ReadDataBlock` (lines 473-497): one Frame Transaction, then the
continuation loop.  Ghost-counts the per-block-exchange invocation. -/
def ReadDataBlock (cfg : Config) (orc : Oracle) (fuel : Nat)
    (data : Option (List Nat)) (reply : ReplyState) (env : Env) : PRes :=
  match ReadDLMSPacket cfg orc fuel data (some reply) (blockEnv data env) with
  | ⟨.ok, reply1, env2⟩ => dataBlockLoop cfg orc fuel reply1 env2
  | r => r

/-- Result of `ReadDataBlocks`: outcome, the returned boolean, final
accumulator and ghost state. -/
structure BlocksRes where
  out : Outcome
  okFlag : Bool
  reply : ReplyState
  env : Env
  deriving Repr, DecidableEq

/-- The per-block loop of `ReadDataBlocks` (lines 463-469): clear the
accumulator, run one block, short-circuit on error; at the end report
whether the accumulator's error code is zero. -/
def blocksLoop (cfg : Config) (orc : Oracle) (fuel : Nat) :
    List (List Nat) → ReplyState → Env → BlocksRes
  | [], reply, env => ⟨.ok, reply.error == 0, reply, env⟩
  | b :: rest, _reply, env =>
    match ReadDataBlock cfg orc fuel (some b) ReplyState.clear (env.log Action.clearAcc) with
    | ⟨.ok, reply1, env1⟩ => blocksLoop cfg orc fuel rest reply1 env1
    | ⟨o, reply1, env1⟩ => ⟨o, false, reply1, env1⟩

/-- Model of `ReadDataBlocks` (lines 459-470): nil block set returns true at
once; otherwise run the per-block loop. -/
def ReadDataBlocks (cfg : Config) (orc : Oracle) (fuel : Nat)
    (blocks : Option (List (List Nat))) (reply : ReplyState) (env : Env) :
    BlocksRes :=
  match blocks with
  | none => ⟨.ok, true, reply, env⟩
  | some bs => blocksLoop cfg orc fuel bs reply env

/-- The frame loop of `ReadList` (lines 530-540): run each frame through
`ReadDataBlock`; when not more-data, append the decoded values when the
reply value is a value list; clear the accumulator after each frame. -/
def readListLoop (cfg : Config) (orc : Oracle) (fuel : Nat) :
    List (List Nat) → ReplyState → List Nat → Env →
      Except (Outcome × Env) (List Nat × Env)
  | [], _reply, values, env => .ok (values, env)
  | f :: rest, reply, values, env =>
    match ReadDataBlock cfg orc fuel (some f) reply env with
    | ⟨.ok, reply1, env1⟩ =>
      let values1 :=
        if !reply1.moreData then
          match reply1.value with
          | some vs => values ++ vs
          | none => values
        else values
      readListLoop cfg orc fuel rest ReplyState.clear values1 (env1.log Action.clearAcc)
    | ⟨o, _, env1⟩ => .error (o, env1)

/-- The count-mismatch message of `ReadList` (line 542). -/
def invalidReplyCountMsg (got expected : Nat) : String :=
  "invalid reply count: got " ++ toString got ++ ", expected " ++ toString expected

/-- Result of `ReadList`: outcome and final ghost state. -/
structure ListRes where
  out : Outcome
  env : Env
  deriving Repr, DecidableEq

/-- Model of `ReadList` (lines 523-545): build the frames, assemble the decoded
values across the frames, fail with the count-mismatch error when the
assembled list's length differs from the request list's length, else
apply the values via `client.UpdateValues`. -/
def ReadList (cfg : Config) (orc : Oracle) (fuel : Nat)
    (list : List (Nat × Nat)) (env : Env) : ListRes :=
  match orc.rlFrames with
  | .error m => ⟨.err m, env⟩
  | .ok frames =>
    match readListLoop cfg orc fuel frames ReplyState.clear [] env with
    | .error (o, env1) => ⟨o, env1⟩
    | .ok (values, env1) =>
      if values.length != list.length then
        ⟨.err (invalidReplyCountMsg values.length list.length), env1⟩
      else
        let env2 := { env1.log (Action.updateValues list values) with
                      updCalls := env1.updCalls + 1 }
        match orc.updValFail with
        | some m => ⟨.err m, env2⟩
        | none => ⟨.ok, env2⟩

/-- The reader's nullable collaborator references: `r.media` and
`r.client`. -/
structure Reader where
  mediaPresent : Bool := true
  clientPresent : Bool := true
  deriving Repr, DecidableEq

/-- Model of `Release` (lines 618-633): no-op when client or media is nil or the
interface does not need a release; else build the release request (build
failure propagates) and run the blocks, propagating only the error. -/
def Release (cfg : Config) (orc : Oracle) (fuel : Nat) (r : Reader)
    (env : Env) : Outcome × Env :=
  if !r.clientPresent || !r.mediaPresent then (.ok, env)
  else if cfg.interfaceWrapper || (!cfg.securityNone && !cfg.preEstablished) then
    match orc.releaseFrames with
    | .error m => (.err m, env)
    | .ok frames =>
      let res := ReadDataBlocks cfg orc fuel frames ReplyState.clear env
      (res.out, res.env)
  else (.ok, env)

/-- Model of `Disconnect` (lines 636-654): no-op when client or media is nil;
run `Release`, logging but otherwise ignoring its error; build the
disconnect request (build failure propagates, nil frame is success) and
send it through `ReadDLMSPacket`. -/
def Disconnect (cfg : Config) (orc : Oracle) (fuel : Nat) (r : Reader)
    (env : Env) : Outcome × Env :=
  if !r.clientPresent || !r.mediaPresent then (.ok, env)
  else
    let rel := Release cfg orc fuel r env
    match orc.discReq with
    | .error m => (.err m, rel.2)
    | .ok none => (.ok, rel.2)
    | .ok (some frame) =>
      let res := ReadDLMSPacket cfg orc fuel (some frame) (some ReplyState.clear) rel.2
      (res.out, res.env)

/-- The disconnect-request stage of `Disconnect` (lines 645-653) on its
own, used to state that the release outcome never influences the
result. -/
def disconnectCore (cfg : Config) (orc : Oracle) (fuel : Nat) (env : Env) :
    Outcome × Env :=
  match orc.discReq with
  | .error m => (.err m, env)
  | .ok none => (.ok, env)
  | .ok (some frame) =>
    let res := ReadDLMSPacket cfg orc fuel (some frame) (some ReplyState.clear) env
    (res.out, res.env)

/-- Result of `Close`: outcome, the reader state after the call and the
ghost state. -/
structure CloseRes where
  out : Outcome
  reader : Reader
  env : Env
  deriving Repr, DecidableEq

/-- Model of `Close` (lines 657-666): no-op when media is nil; else run
`Disconnect` discarding its error, close the media, null out media and
client, and return the media-close error. -/
def Close (cfg : Config) (orc : Oracle) (fuel : Nat) (r : Reader)
    (env : Env) : CloseRes :=
  if !r.mediaPresent then ⟨.ok, r, env⟩
  else
    let d := Disconnect cfg orc fuel r env
    ⟨(match orc.closeFail with | some m => .err m | none => .ok),
     { r with mediaPresent := false, clientPresent := false },
     d.2.log Action.mediaClose⟩

/-! Concrete configurations and oracles used to instantiate the
theorems on specific scenarios. -/

/-- The default configuration: `RetryCount = 3`, HDLC interface, active
negotiated connection. -/
def cfgD : Config := {}

/-- A base oracle: the transport always times out on receive, sends
succeed, every builder succeeds trivially. -/
def orcBase : Oracle where
  recv := fun _ => .timeout
  parse := fun _ => {}
  rr := fun _ => .ok []
  sendFail := fun _ => none
  frameSize := 1
  discReq := .ok none
  releaseFrames := .ok none
  rlFrames := .ok []
  updValFail := none
  closeFail := none

/-- An oracle whose device completes every exchange immediately with
error code `e`. -/
def orcErrCode (e : Nat) : Oracle := { orcBase with
  recv := fun _ => .bytes [0]
  parse := fun _ => { complete := true, reply := { error := e, dataSize := 1 } } }

/-- An oracle whose device answers the first exchange with "rejected"
and every later exchange with error code `e`. -/
def orcRejThen (e : Nat) : Oracle := { orcBase with
  recv := fun _ => .bytes [0]
  parse := fun i =>
    if i == 0 then
      { complete := true, reply := { error := errorCodeRejected, dataSize := 1 } }
    else { complete := true, reply := { error := e, dataSize := 1 } } }

/-- An oracle whose device answers the first two exchanges with
"rejected" and then succeeds. -/
def orcRej2 : Oracle := { orcBase with
  recv := fun _ => .bytes [0]
  parse := fun i =>
    if i ≤ 1 then
      { complete := true, reply := { error := errorCodeRejected, dataSize := 1 } }
    else { complete := true, reply := { error := 0, dataSize := 1 } } }

/-- An oracle whose device answers every exchange with "rejected". -/
def orcRejForever : Oracle := { orcBase with
  recv := fun _ => .bytes [0]
  parse := fun _ =>
    { complete := true, reply := { error := errorCodeRejected, dataSize := 1 } } }

/-- Environment component of a first-loop result. -/
def flEnv : Except (Outcome × Env) (Option (List Nat) × Nat × Env) → Env
  | .error (_, e) => e
  | .ok (_, _, e) => e

/-- Environment component of a receive-retry-loop result. -/
def rlEnv : Except (Outcome × Env) (Nat × List Nat × Env) → Env
  | .error (_, e) => e
  | .ok (_, _, e) => e

/-- Environment component of a reassembly-loop result. -/
def gdEnv : Except (Outcome × Env) (ReplyState × Env) → Env
  | .error (_, e) => e
  | .ok (_, e) => e

/-- Environment component of a list-collection result. -/
def llEnv : Except (Outcome × Env) (List Nat × Env) → Env
  | .error (_, e) => e
  | .ok (_, e) => e

/-- Environment component of an exchange-core result. -/
def ecEnv : PRes ⊕ (ReplyState × Env) → Env
  | .inl r => r.env
  | .inr (_, e) => e

/-- The ghost counters that the packet layer never touches: number of
per-block exchanges and of value applications. -/
def ghost (e : Env) : Nat × Nat := (e.blockCalls, e.updCalls)

/-- An oracle for the read-list scenario: one frame, each exchange
completes immediately with two decoded values. -/
def orcList : Oracle := { orcBase with
  recv := fun _ => .bytes [0]
  parse := fun _ =>
    { complete := true
      reply := { error := 0, dataSize := 1, moreData := false, value := some [7, 8] } }
  rlFrames := .ok [[1]] }

/-- While the accumulator is streaming, the first send/receive loop of
the Go code has an empty body and never changes `attempt`, so it spins
until the fuel bound: it performs no send, no receive, and no state
change.  (The C# original receives inside this loop; the Go port moved
the receive under the not-streaming guard.) -/
theorem firstLoop_streaming (cfg : Config) (orc : Oracle)
    (data : Option (List Nat)) (eop : Bool) :
    ∀ fuel attempt pR pC env, attempt ≠ 3 →
      firstLoop cfg orc data true eop fuel attempt pR pC env =
        .error (.fuelOut, env) := by
  intro fuel
  induction fuel with
  | zero => intro a pR pC env h; simp [firstLoop, h]
  | succ n ih => intro a pR pC env h; simp [firstLoop, h]; exact ih a pR pC env h

/-- A streaming entry never gets past the first loop: the whole exchange
returns fuel exhaustion with the ghost state untouched. -/
theorem exchangeCore_streaming (cfg : Config) (orc : Oracle) (fuel : Nat)
    (data : Option (List Nat)) (reply : ReplyState) (env : Env)
    (h : reply.streaming = true) :
    exchangeCore cfg orc fuel data reply env =
      .inl ⟨.fuelOut, { reply with error := 0 }, env⟩ := by
  simp [exchangeCore, h, firstLoop_streaming cfg orc data (!cfg.hdlc) fuel 0 none
    orc.frameSize env (by decide)]

/-- C9: calling `ReadDLMSPacket` with a nil outbound byte slice while
the accumulator is not streaming returns success immediately: no send,
no receive, and the accumulator is returned unchanged (only the ghost
invocation marker is recorded). -/
theorem c9_nil_frame_noop (cfg : Config) (orc : Oracle) (fuel : Nat)
    (reply : ReplyState) (env : Env) (hs : reply.streaming = false) :
    ReadDLMSPacket cfg orc fuel none (some reply) env =
      ⟨.ok, reply, env.log (.packet none)⟩ := by
  cases fuel <;> simp [ReadDLMSPacket, hs]

/-- Witness for C9 at a concrete input. -/
theorem c9_nil_frame_noop_witness :
    ReplyState.clear.streaming = false ∧
      ReadDLMSPacket cfgD orcBase 5 none (some ReplyState.clear) {} =
        ⟨.ok, ReplyState.clear, Env.log {} (.packet none)⟩ :=
  ⟨rfl, c9_nil_frame_noop cfgD orcBase 5 ReplyState.clear {} rfl⟩

/-- C5 counterexample: the claim reads every length-zero outbound frame
as producing the error "packet is empty" when not streaming, and as
being accepted only while streaming.  A nil frame has length zero in Go,
yet `ReadDLMSPacket` with a nil frame and a non-streaming accumulator
returns success immediately, not the "packet is empty" error. -/
theorem c5_counterexample :
    (ReadDLMSPacket cfgD orcBase 5 none (some ReplyState.clear) {}).out = .ok ∧
      (ReadDLMSPacket cfgD orcBase 5 none (some ReplyState.clear) {}).out ≠
        .err "packet is empty" := by
  constructor <;> decide

/-- C5 amended: a nil accumulator yields an immediate error; an empty
but non-nil outbound frame with a non-streaming accumulator yields the
error "packet is empty"; a nil frame with a non-streaming accumulator is
returned as immediate success instead; and while the accumulator is
streaming an empty frame never produces the "packet is empty" error
(the first loop spins without sending, modelled as fuel exhaustion). -/
theorem c5_preconditions (cfg : Config) (orc : Oracle) (fuel n : Nat)
    (data : Option (List Nat)) (reply : ReplyState) (env : Env) :
    (ReadDLMSPacket cfg orc fuel data none env =
      ⟨.err "reply is nil", ReplyState.clear, env.log (.packet data)⟩) ∧
    (reply.streaming = false →
      ReadDLMSPacket cfg orc (n + 1) (some []) (some reply) env =
        ⟨.err "packet is empty", { reply with error := 0 },
          env.log (.packet (some []))⟩) ∧
    (reply.streaming = false →
      ReadDLMSPacket cfg orc fuel none (some reply) env =
        ⟨.ok, reply, env.log (.packet none)⟩) ∧
    (reply.streaming = true →
      (ReadDLMSPacket cfg orc fuel (some []) (some reply) env).out = .fuelOut ∧
      (ReadDLMSPacket cfg orc fuel (some []) (some reply) env).out ≠
        .err "packet is empty") := by
  refine ⟨?_, ?_, ?_, ?_⟩
  · cases fuel <;> simp [ReadDLMSPacket]
  · intro hs
    simp [ReadDLMSPacket, exchangeCore, firstLoop, hs]
  · intro hs
    cases fuel <;> simp [ReadDLMSPacket, hs]
  · intro hs
    cases fuel <;> simp [ReadDLMSPacket, hs, exchangeCore_streaming _ _ _ _ _ _ hs]

/-- Witness for C5 amended at concrete inputs. -/
theorem c5_preconditions_witness :
    ReadDLMSPacket cfgD orcBase 5 (some []) (some ReplyState.clear) {} =
      ⟨.err "packet is empty", { ReplyState.clear with error := 0 },
        Env.log {} (.packet (some []))⟩ :=
  (c5_preconditions cfgD orcBase 5 4 (some []) ReplyState.clear {}).2.1 rfl

/-- C8: `Close` is idempotent: after any first `Close`, the media
reference is cleared, so a second `Close` returns no error, leaves the
reader unchanged and performs no action at all (no disconnect, no
release, no media close). -/
theorem c8_close_idempotent (cfg : Config) (orc : Oracle) (fuel : Nat)
    (r : Reader) (env env2 : Env) :
    Close cfg orc fuel (Close cfg orc fuel r env).reader env2 =
      ⟨.ok, (Close cfg orc fuel r env).reader, env2⟩ := by
  cases hr : r.mediaPresent <;> simp [Close, hr]

/-- C7: teardown is best-effort in order.  (1) `Disconnect` equals the
disconnect-request stage run on the ghost state left by `Release`: the
release outcome, error or not, is dropped and the disconnect request
still proceeds.  (2) A failure to build the disconnect request aborts
`Disconnect` with that error, with no packet exchange after the release
stage.  (3) `Close` runs `Disconnect`, ignores its outcome entirely,
closes the transport unconditionally and reports only the media-close
error. -/
theorem c7_teardown (cfg : Config) (orc : Oracle) (fuel : Nat)
    (r : Reader) (env : Env) :
    (r.clientPresent = true → r.mediaPresent = true →
      Disconnect cfg orc fuel r env =
        disconnectCore cfg orc fuel (Release cfg orc fuel r env).2) ∧
    (∀ m, r.clientPresent = true → r.mediaPresent = true →
      orc.discReq = .error m →
      Disconnect cfg orc fuel r env = (.err m, (Release cfg orc fuel r env).2)) ∧
    (r.mediaPresent = true →
      Close cfg orc fuel r env =
        ⟨(match orc.closeFail with | some m => .err m | none => .ok),
         { r with mediaPresent := false, clientPresent := false },
         (Disconnect cfg orc fuel r env).2.log Action.mediaClose⟩) := by
  refine ⟨?_, ?_, ?_⟩
  · intro hc hm; simp [Disconnect, disconnectCore, hc, hm]
  · intro m hc hm hd; simp [Disconnect, hc, hm, hd]
  · intro hm; simp [Close, hm]

/-- Witness for C7 at a concrete input, with a failing release build:
the release error is swallowed and the disconnect request still runs. -/
theorem c7_teardown_witness :
    Disconnect { cfgD with interfaceWrapper := true }
        { orcBase with releaseFrames := .error "release refused" } 5 {} {} =
      disconnectCore { cfgD with interfaceWrapper := true }
        { orcBase with releaseFrames := .error "release refused" } 5
        (Release { cfgD with interfaceWrapper := true }
          { orcBase with releaseFrames := .error "release refused" } 5 {} {}).2 :=
  (c7_teardown { cfgD with interfaceWrapper := true }
    { orcBase with releaseFrames := .error "release refused" } 5 {} {}).1 rfl rfl

/-- When every receive times out and sends succeed, the first loop with
`attempt < RetryCount ≤ 3` performs exactly `RetryCount - attempt` more
sends and returns the transport-exhausted error. -/
theorem firstLoop_timeout (cfg : Config) (orc : Oracle)
    (data : Option (List Nat)) (eop : Bool)
    (hrecv : ∀ i, orc.recv i = .timeout) (hsend : ∀ i, orc.sendFail i = none)
    (hd : (data.getD []).isEmpty = false) :
    ∀ fuel attempt pR pC env, attempt < cfg.retryCount → cfg.retryCount ≤ 3 →
      cfg.retryCount - attempt ≤ fuel →
      ∃ env', firstLoop cfg orc data false eop fuel attempt pR pC env =
          .error (.err "failed to receive reply from the device in given time", env') ∧
        env'.sendCount = env.sendCount + (cfg.retryCount - attempt) := by
  intro fuel
  induction fuel with
  | zero => intro a pR pC env h1 h2 h3; omega
  | succ n ih =>
    intro a pR pC env h1 h2 h3
    have hb : (a == 3) = false := by simp; omega
    simp only [firstLoop, hb, Bool.false_eq_true, if_false, hd, Env.log,
      hsend, hrecv]
    by_cases hr : cfg.retryCount ≤ a + 1
    · rw [if_pos hr]
      refine ⟨_, rfl, ?_⟩
      simp [Env.log]
      omega
    · rw [if_neg hr]
      obtain ⟨env', heq, hsc⟩ := ih (a + 1) pR (if eop then 1 else pC) _
        (by omega) h2 (by omega)
      refine ⟨env', heq, ?_⟩
      simp [Env.log] at hsc
      omega

/-- C1 amended: for every configured retry bound N with 1 ≤ N ≤ 3, a
call to `ReadDLMSPacket` whose transport receive never succeeds performs
exactly N send attempts and returns the transport-exhausted error.  (For
N > 3 the loop's hard-coded `attempt != 3` exit wins, see the
counterexample; for N = 0 one send still happens.) -/
theorem c1_retry_bound (cfg : Config) (orc : Oracle) (l : List Nat)
    (reply : ReplyState) (env : Env) (fuel : Nat)
    (h1 : 1 ≤ cfg.retryCount) (h2 : cfg.retryCount ≤ 3)
    (hf : cfg.retryCount ≤ fuel)
    (hrecv : ∀ i, orc.recv i = .timeout) (hsend : ∀ i, orc.sendFail i = none)
    (hl : l ≠ []) (hs : reply.streaming = false) :
    (ReadDLMSPacket cfg orc fuel (some l) (some reply) env).out =
        .err "failed to receive reply from the device in given time" ∧
      (ReadDLMSPacket cfg orc fuel (some l) (some reply) env).env.sendCount =
        env.sendCount + cfg.retryCount := by
  have hd : (((some l) : Option (List Nat)).getD []).isEmpty = false := by
    cases l <;> simp_all
  obtain ⟨env', heq, hsc⟩ := firstLoop_timeout cfg orc (some l) (!cfg.hdlc)
    hrecv hsend hd fuel 0 none orc.frameSize (env.log (.packet (some l)))
    (by omega) h2 (by omega)
  cases fuel with
  | zero => omega
  | succ n =>
    constructor
    · simp [ReadDLMSPacket, exchangeCore, hs, heq]
    · simp [ReadDLMSPacket, exchangeCore, hs, heq]
      simp [Env.log] at hsc
      omega

/-- Witness for C1 amended at the default bound N = 3. -/
theorem c1_retry_bound_witness :
    (ReadDLMSPacket cfgD orcBase 3 (some [1]) (some ReplyState.clear) {}).out =
        .err "failed to receive reply from the device in given time" ∧
      (ReadDLMSPacket cfgD orcBase 3 (some [1]) (some ReplyState.clear) {}).env.sendCount =
        3 :=
  c1_retry_bound cfgD orcBase [1] ReplyState.clear {} 3 (by decide) (by decide)
    (by decide) (fun _ => rfl) (fun _ => rfl) (by decide) rfl

/-- C1 counterexample: with `RetryCount = 4` and a transport that never
receives successfully, the loop's hard-coded `attempt != 3` exit fires
first: only 3 send attempts happen and the call does not return the
transport-exhausted error (it falls through to the `p.Reply.([]byte)`
type assertion on a nil value, a panic), refuting the claim for every
configured N. -/
theorem c1_counterexample :
    (ReadDLMSPacket { cfgD with retryCount := 4 } orcBase 5 (some [1])
        (some ReplyState.clear) {}).env.sendCount = 3 ∧
      (ReadDLMSPacket { cfgD with retryCount := 4 } orcBase 5 (some [1])
        (some ReplyState.clear) {}).out ≠
        .err "failed to receive reply from the device in given time" ∧
      (ReadDLMSPacket { cfgD with retryCount := 4 } orcBase 5 (some [1])
        (some ReplyState.clear) {}).out = .panic := by
  refine ⟨by decide, by decide, by decide⟩

/-- Against a persistently rejecting device, `ReadDLMSPacket` recurses
without bound: at every fuel bound the result is fuel exhaustion. -/
theorem rejectedForever_fuelOut :
    ∀ fuel (reply : ReplyState) (env : Env), reply.streaming = false →
      (ReadDLMSPacket cfgD orcRejForever fuel (some [1]) (some reply) env).out =
        .fuelOut := by
  intro fuel
  induction fuel with
  | zero =>
    intro reply env hs
    simp [ReadDLMSPacket, exchangeCore, firstLoop, hs]
  | succ n ih =>
    intro reply env hs
    simp [ReadDLMSPacket, exchangeCore, firstLoop, getDataLoop, orcRejForever,
      orcBase, Env.log, cfgD, errorCodeRejected, hs]
    exact ih _ _ rfl

/-- C2 amended: a completed reply carrying the "rejected" code triggers
a back-off pause and a full recursive re-run of the exchange - once per
consecutive rejected reply, with no bound.  (1) With one rejected reply
followed by a reply carrying a different nonzero code, the transport
sees exactly two full send/receive exchanges separated by one sleep, and
the call fails with the decoded device error.  (2) With one rejected
reply followed by success, same two exchanges and the call succeeds.
(3) For any other nonzero error code the call fails immediately with the
decoded device error after a single exchange and no sleep.  (4) Against
a persistently rejecting device the recursion never terminates (fuel
exhaustion at every bound) - there is no cap on self-retries. -/
theorem c2_rejected_retry :
    (∀ e, e ≠ 0 → e ≠ errorCodeRejected →
      (ReadDLMSPacket cfgD (orcRejThen e) 5 (some [1]) (some ReplyState.clear) {}).out =
          .errDlms e ∧
        (ReadDLMSPacket cfgD (orcRejThen e) 5 (some [1]) (some ReplyState.clear) {}).env.trace =
          [.packet (some [1]), .send (some [1]), .recv, .sleep,
           .packet (some [1]), .send (some [1]), .recv]) ∧
    ((ReadDLMSPacket cfgD (orcRejThen 0) 5 (some [1]) (some ReplyState.clear) {}).out =
        .ok ∧
      (ReadDLMSPacket cfgD (orcRejThen 0) 5 (some [1]) (some ReplyState.clear) {}).env.trace =
        [.packet (some [1]), .send (some [1]), .recv, .sleep,
         .packet (some [1]), .send (some [1]), .recv]) ∧
    (∀ e, e ≠ 0 → e ≠ errorCodeRejected →
      (ReadDLMSPacket cfgD (orcErrCode e) 5 (some [1]) (some ReplyState.clear) {}).out =
          .errDlms e ∧
        (ReadDLMSPacket cfgD (orcErrCode e) 5 (some [1]) (some ReplyState.clear) {}).env.trace =
          [.packet (some [1]), .send (some [1]), .recv]) ∧
    (∀ fuel (reply : ReplyState) (env : Env), reply.streaming = false →
      (ReadDLMSPacket cfgD orcRejForever fuel (some [1]) (some reply) env).out =
        .fuelOut) := by
  refine ⟨?_, ⟨by decide, by decide⟩, ?_, rejectedForever_fuelOut⟩
  · intro e he hr
    have hr3 : e ≠ 3 := by simpa [errorCodeRejected] using hr
    have hb0 : (e == 0) = false := by simp [he]
    have hb3 : (e == errorCodeRejected) = false := by simp [hr]
    constructor <;>
    simp [ReadDLMSPacket, exchangeCore, firstLoop, getDataLoop, orcRejThen, orcBase,
      Env.log, hb0, hb3, he, hr3, cfgD, ReplyState.clear,
      errorCodeRejected]
  · intro e he hr
    have hr3 : e ≠ 3 := by simpa [errorCodeRejected] using hr
    have hb0 : (e == 0) = false := by simp [he]
    have hb3 : (e == errorCodeRejected) = false := by simp [hr]
    constructor <;>
    simp [ReadDLMSPacket, exchangeCore, firstLoop, getDataLoop, orcErrCode, orcBase,
      Env.log, hb0, hb3, he, hr3, cfgD, ReplyState.clear,
      errorCodeRejected]

/-- Witness for C2 amended at the concrete code 5. -/
theorem c2_rejected_retry_witness :
    (ReadDLMSPacket cfgD (orcRejThen 5) 5 (some [1]) (some ReplyState.clear) {}).out =
        .errDlms 5 ∧
      (ReadDLMSPacket cfgD (orcRejThen 5) 5 (some [1]) (some ReplyState.clear) {}).env.trace =
        [.packet (some [1]), .send (some [1]), .recv, .sleep,
         .packet (some [1]), .send (some [1]), .recv] :=
  c2_rejected_retry.1 5 (by decide) (by decide)

/-- C2 counterexample: a device that answers "rejected" twice and then
succeeds makes the code run three full exchanges (three transport
sends), not the claimed single additional self-retry with 2x the
non-rejected send count. -/
theorem c2_counterexample :
    (ReadDLMSPacket cfgD orcRej2 5 (some [1]) (some ReplyState.clear) {}).out = .ok ∧
      (ReadDLMSPacket cfgD orcRej2 5 (some [1]) (some ReplyState.clear) {}).env.sendCount =
        3 := by
  refine ⟨by decide, by decide⟩

/-- Notification dispatch preserves the ghost counters. -/
theorem notifyEnv_ghost (cfg : Config) (s : ParseStep) (e : Env) :
    ghost (notifyEnv cfg s e) = ghost e := by
  simp only [notifyEnv, Env.log]
  repeat' split
  all_goals simp [ghost]

/-- The first send/receive loop preserves the ghost counters. -/
theorem firstLoop_ghost (cfg : Config) (orc : Oracle) (data : Option (List Nat))
    (s eop : Bool) : ∀ fuel a pR pC env,
    ghost (flEnv (firstLoop cfg orc data s eop fuel a pR pC env)) = ghost env := by
  intro fuel
  induction fuel with
  | zero =>
    intro a pR pC env
    by_cases h : a = 3 <;> simp [firstLoop, flEnv, h]
  | succ n ih =>
    intro a pR pC env
    simp only [firstLoop, Env.log]
    repeat' split
    all_goals simp_all [flEnv, ghost, ih]

/-- The receive-retry loop preserves the ghost counters. -/
theorem recvLoop_ghost (cfg : Config) (orc : Oracle) (data : Option (List Nat)) :
    ∀ fuel a pR env,
      ghost (rlEnv (recvLoop cfg orc data fuel a pR env)) = ghost env := by
  intro fuel
  induction fuel with
  | zero => intro a pR env; simp [recvLoop, rlEnv]
  | succ n ih =>
    intro a pR env
    simp only [recvLoop, Env.log]
    repeat' split
    all_goals simp_all [rlEnv, ghost, ih]

/-- The reassembly loop preserves the ghost counters. -/
theorem getDataLoop_ghost (cfg : Config) (orc : Oracle) (data : Option (List Nat))
    (eop : Bool) : ∀ fuel r a pC pR rd env,
      ghost (gdEnv (getDataLoop cfg orc data eop fuel r a pC pR rd env)) = ghost env := by
  intro fuel
  induction fuel with
  | zero => intro r a pC pR rd env; simp [getDataLoop, gdEnv]
  | succ n ih =>
    intro r a pC pR rd env
    simp only [getDataLoop]
    split
    · simp [gdEnv, ghost]
    · split
      · simp [gdEnv, ghost]
      · split
        next p heq =>
          have h2 : ghost (rlEnv (Except.error p)) = ghost env := by
            rw [← heq, recvLoop_ghost, notifyEnv_ghost]
            simp [ghost]
          simpa [gdEnv, rlEnv] using h2
        next a1 bs env3 heq =>
          have h2 : ghost (rlEnv (Except.ok (a1, bs, env3))) = ghost env := by
            rw [← heq, recvLoop_ghost, notifyEnv_ghost]
            simp [ghost]
          simp only [rlEnv] at h2
          rw [ih]
          exact h2

/-- One exchange pass preserves the ghost counters. -/
theorem exchangeCore_ghost (cfg : Config) (orc : Oracle) (fuel : Nat)
    (data : Option (List Nat)) (r : ReplyState) (env : Env) :
    ghost (ecEnv (exchangeCore cfg orc fuel data r env)) = ghost env := by
  simp only [exchangeCore]
  split
  next o env1 heq =>
    have h2 : ghost (flEnv (Except.error (o, env1))) = ghost env := by
      rw [← heq, firstLoop_ghost]
    simpa [ecEnv, flEnv] using h2
  next pR pC env1 heq =>
    have h2 : ghost (flEnv (Except.ok (pR, pC, env1))) = ghost env := by
      rw [← heq, firstLoop_ghost]
    simp only [flEnv] at h2
    split
    · simpa [ecEnv] using h2
    next bs =>
      split
      next o env2 heq2 =>
        have h3 : ghost (gdEnv (Except.error (o, env2))) = ghost env1 := by
          rw [← heq2, getDataLoop_ghost]
        simp only [gdEnv] at h3
        simpa [ecEnv] using h3.trans h2
      next reply2 env2 heq2 =>
        have h3 : ghost (gdEnv (Except.ok (reply2, env2))) = ghost env1 := by
          rw [← heq2, getDataLoop_ghost]
        simp only [gdEnv] at h3
        split
        · simpa [ecEnv] using h3.trans h2
        · split
          · simp only [ecEnv]
            have : ghost (env2.log Action.sleep) = ghost env2 := by simp [ghost, Env.log]
            exact this.trans (h3.trans h2)
          · simpa [ecEnv] using h3.trans h2

/-- The packet layer (`ReadDLMSPacket`) never performs a per-block exchange or a value
application: the ghost counters are preserved. -/
theorem packet_ghost (cfg : Config) (orc : Oracle) :
    ∀ fuel data ropt env,
      ghost ((ReadDLMSPacket cfg orc fuel data ropt env).env) = ghost env := by
  intro fuel
  induction fuel with
  | zero =>
    intro data ropt env
    cases ropt with
    | none => simp [ReadDLMSPacket, ghost, Env.log]
    | some reply =>
      simp only [ReadDLMSPacket]
      split
      · simp [ghost, Env.log]
      · split
        next r heq =>
          have h2 : ghost (ecEnv (Sum.inl r)) = ghost (env.log (.packet data)) := by
            rw [← heq, exchangeCore_ghost]
          simp only [ecEnv] at h2
          simpa [ghost, Env.log] using h2
        next reply2 env2 heq =>
          have h2 : ghost (ecEnv (Sum.inr (reply2, env2))) = ghost (env.log (.packet data)) := by
            rw [← heq, exchangeCore_ghost]
          simp only [ecEnv] at h2
          simpa [ghost, Env.log] using h2
  | succ n ih =>
    intro data ropt env
    cases ropt with
    | none => simp [ReadDLMSPacket, ghost, Env.log]
    | some reply =>
      simp only [ReadDLMSPacket]
      split
      · simp [ghost, Env.log]
      · split
        next r heq =>
          have h2 : ghost (ecEnv (Sum.inl r)) = ghost (env.log (.packet data)) := by
            rw [← heq, exchangeCore_ghost]
          simp only [ecEnv] at h2
          simpa [ghost, Env.log] using h2
        next reply2 env2 heq =>
          have h2 : ghost (ecEnv (Sum.inr (reply2, env2))) = ghost (env.log (.packet data)) := by
            rw [← heq, exchangeCore_ghost]
          simp only [ecEnv] at h2
          rw [ih]
          simpa [ghost, Env.log] using h2

/-- The continuation loop preserves the ghost counters. -/
theorem dataBlockLoop_ghost (cfg : Config) (orc : Oracle) :
    ∀ fuel r env, ghost ((dataBlockLoop cfg orc fuel r env).env) = ghost env := by
  intro fuel
  induction fuel with
  | zero => intro r env; simp only [dataBlockLoop]; split <;> simp
  | succ n ih =>
    intro r env
    simp only [dataBlockLoop]
    split
    · split
      · generalize hp : ReadDLMSPacket cfg orc (n + 1) none (some r) env = p
        have hgp : ghost p.env = ghost env := by rw [← hp, packet_ghost]
        obtain ⟨o, r1, e1⟩ := p
        cases o <;> first | exact hgp | exact (ih r1 e1).trans hgp
      · cases hrr : orc.rr env.rrCtr with
        | error m => simp [ghost]
        | ok f =>
          dsimp only
          generalize hp :
            ReadDLMSPacket cfg orc (n + 1) (some f) (some r) (rrEnv f env) = p
          have hgp : ghost p.env = ghost env := by
            rw [← hp, packet_ghost]
            simp [ghost, rrEnv, Env.log]
          obtain ⟨o, r1, e1⟩ := p
          cases o <;> first | exact hgp | exact (ih r1 e1).trans hgp
    · simp

/-- The function `ReadDataBlock` performs exactly one per-block exchange and no
value application. -/
theorem readDataBlock_ghost (cfg : Config) (orc : Oracle) (fuel : Nat)
    (data : Option (List Nat)) (r : ReplyState) (env : Env) :
    ghost ((ReadDataBlock cfg orc fuel data r env).env) =
      (env.blockCalls + 1, env.updCalls) := by
  simp only [ReadDataBlock]
  generalize hp :
    ReadDLMSPacket cfg orc fuel data (some r) (blockEnv data env) = p
  have hgp : ghost p.env = (env.blockCalls + 1, env.updCalls) := by
    rw [← hp, packet_ghost]
    simp [ghost, blockEnv, Env.log]
  obtain ⟨o, r1, e1⟩ := p
  cases o <;>
    first
      | exact hgp
      | exact (dataBlockLoop_ghost cfg orc fuel r1 e1).trans hgp

/-- The per-block loop of `ReadDataBlocks` runs one exchange per block
on the success path (returning whether the accumulator ended
error-free), and j exchanges with a false flag when the j-th block
first fails. -/
theorem blocksLoop_spec (cfg : Config) (orc : Oracle) (fuel : Nat) :
    ∀ bs (reply : ReplyState) (env : Env),
      ((blocksLoop cfg orc fuel bs reply env).out = .ok →
        (blocksLoop cfg orc fuel bs reply env).env.blockCalls =
            env.blockCalls + bs.length ∧
          (blocksLoop cfg orc fuel bs reply env).okFlag =
            ((blocksLoop cfg orc fuel bs reply env).reply.error == 0)) ∧
      ((blocksLoop cfg orc fuel bs reply env).out ≠ .ok →
        (blocksLoop cfg orc fuel bs reply env).okFlag = false ∧
          ∃ j, 1 ≤ j ∧ j ≤ bs.length ∧
            (blocksLoop cfg orc fuel bs reply env).env.blockCalls =
              env.blockCalls + j) := by
  intro bs
  induction bs with
  | nil =>
    intro reply env
    constructor
    · intro _; simp [blocksLoop]
    · intro hne; exact absurd rfl hne
  | cons b rest ih =>
    intro reply env
    simp only [blocksLoop]
    generalize hp :
      ReadDataBlock cfg orc fuel (some b) ReplyState.clear (env.log Action.clearAcc) = p
    have hgp : ghost p.env = (env.blockCalls + 1, env.updCalls) := by
      rw [← hp, readDataBlock_ghost]
      simp [Env.log]
    have hbc : p.env.blockCalls = env.blockCalls + 1 := by
      simpa [ghost] using congrArg Prod.fst hgp
    obtain ⟨o, r1, e1⟩ := p
    simp only at hbc
    cases o
    case ok =>
      obtain ⟨ha, hb⟩ := ih r1 e1
      constructor
      · intro hok
        obtain ⟨h1, h2⟩ := ha hok
        refine ⟨?_, h2⟩
        rw [h1, hbc]
        simp only [List.length_cons]
        omega
      · intro hne
        obtain ⟨h1, j, hj1, hj2, hj3⟩ := hb hne
        refine ⟨h1, j + 1, by omega, ?_, ?_⟩
        · simp only [List.length_cons]; omega
        · rw [hj3, hbc]; omega
    all_goals
      refine ⟨fun hok => absurd hok (by simp), fun _ => ⟨rfl, 1, le_refl 1, ?_, hbc⟩⟩
    all_goals simp only [List.length_cons]; omega

/-- The value-collection loop of `ReadList` never applies values. -/
theorem readListLoop_upd (cfg : Config) (orc : Oracle) (fuel : Nat) :
    ∀ frames (reply : ReplyState) (values : List Nat) (env : Env),
      (llEnv (readListLoop cfg orc fuel frames reply values env)).updCalls =
        env.updCalls := by
  intro frames
  induction frames with
  | nil => intro reply values env; simp [readListLoop, llEnv]
  | cons f rest ih =>
    intro reply values env
    simp only [readListLoop]
    generalize hp : ReadDataBlock cfg orc fuel (some f) reply env = p
    have hgp : ghost p.env = (env.blockCalls + 1, env.updCalls) := by
      rw [← hp, readDataBlock_ghost]
    have hupd : p.env.updCalls = env.updCalls := by
      simpa [ghost] using congrArg Prod.snd hgp
    obtain ⟨o, r1, e1⟩ := p
    simp only at hupd
    cases o
    case ok =>
      rw [ih]
      simpa [Env.log] using hupd
    all_goals exact hupd

/-- C3: `ReadDataBlock` invokes the Frame Transaction once with the
given frame, then loops precisely while (a) the accumulator signals
more-data-pending and the connection state is not None or a
pre-established connection is configured, or (b) the accumulator has
error code zero and zero data bytes; on each iteration the next
outbound frame is nil when the accumulator is streaming (and then no
send happens), and otherwise is the receiver-ready continuation frame
built by the codec from the current accumulator state. -/
theorem c3_continuation_loop (cfg : Config) (orc : Oracle) (fuel n : Nat)
    (data : Option (List Nat)) (reply : ReplyState) (env : Env) :
    (ReadDataBlock cfg orc fuel data reply env =
      match ReadDLMSPacket cfg orc fuel data (some reply) (blockEnv data env) with
      | ⟨.ok, r1, e1⟩ => dataBlockLoop cfg orc fuel r1 e1
      | r => r) ∧
    (dbCond cfg reply =
      ((reply.moreData && (!cfg.connStateNone || cfg.preEstablished)) ||
        (reply.error == 0 && reply.dataSize == 0))) ∧
    (dbCond cfg reply = false →
      dataBlockLoop cfg orc fuel reply env = ⟨.ok, reply, env⟩) ∧
    (dbCond cfg reply = true → reply.streaming = true →
      dataBlockLoop cfg orc (n + 1) reply env =
        match ReadDLMSPacket cfg orc (n + 1) none (some reply) env with
        | ⟨.ok, r1, e1⟩ => dataBlockLoop cfg orc n r1 e1
        | r => r) ∧
    (reply.streaming = true →
      (ReadDLMSPacket cfg orc fuel none (some reply) env).env.sendCount =
        env.sendCount) ∧
    (dbCond cfg reply = true → reply.streaming = false →
      dataBlockLoop cfg orc (n + 1) reply env =
        match orc.rr env.rrCtr with
        | .error m => ⟨.err m, reply, { env with rrCtr := env.rrCtr + 1 }⟩
        | .ok f =>
          match ReadDLMSPacket cfg orc (n + 1) (some f) (some reply) (rrEnv f env) with
          | ⟨.ok, r1, e1⟩ => dataBlockLoop cfg orc n r1 e1
          | r => r) := by
  refine ⟨?_, rfl, ?_, ?_, ?_, ?_⟩
  · simp only [ReadDataBlock]
  · intro h
    cases fuel <;> simp [dataBlockLoop, h]
  · intro h hs
    simp only [dataBlockLoop, h, if_true, hs]
  · intro hs
    cases fuel <;>
      simp [ReadDLMSPacket, exchangeCore_streaming _ _ _ _ _ _ hs, Env.log, hs]
  · intro h hs
    simp only [dataBlockLoop, h, if_true, hs, Bool.false_eq_true, if_false]

/-- Witness for C3 at a concrete input: a reply with an error and data
present ends the loop at once. -/
theorem c3_continuation_loop_witness :
    dataBlockLoop cfgD orcBase 5 { error := 1, dataSize := 1 } {} =
      ⟨.ok, { error := 1, dataSize := 1 }, {}⟩ :=
  (c3_continuation_loop cfgD orcBase 5 0 none { error := 1, dataSize := 1 } {}).2.2.1
    (by decide)

/-- C4: `ReadDataBlocks` on a non-nil block set clears the accumulator
before each block and short-circuits on the first error (first
conjunct: the per-block unfolding); on the all-success path it runs the
per-block exchange exactly k times and returns whether the
accumulator's error code is zero; when a block's exchange first fails
it has run j <= k exchanges (j >= 1) and returns false with that
error. -/
theorem c4_block_sequencer (cfg : Config) (orc : Oracle) (fuel : Nat)
    (bs : List (List Nat)) (reply : ReplyState) (env : Env) :
    (∀ b rest, ReadDataBlocks cfg orc fuel (some (b :: rest)) reply env =
      match ReadDataBlock cfg orc fuel (some b) ReplyState.clear
          (env.log Action.clearAcc) with
      | ⟨.ok, r1, e1⟩ => ReadDataBlocks cfg orc fuel (some rest) r1 e1
      | ⟨o, r1, e1⟩ => ⟨o, false, r1, e1⟩) ∧
    ((ReadDataBlocks cfg orc fuel (some bs) reply env).out = .ok →
      (ReadDataBlocks cfg orc fuel (some bs) reply env).env.blockCalls =
          env.blockCalls + bs.length ∧
        (ReadDataBlocks cfg orc fuel (some bs) reply env).okFlag =
          ((ReadDataBlocks cfg orc fuel (some bs) reply env).reply.error == 0)) ∧
    ((ReadDataBlocks cfg orc fuel (some bs) reply env).out ≠ .ok →
      (ReadDataBlocks cfg orc fuel (some bs) reply env).okFlag = false ∧
        ∃ j, 1 ≤ j ∧ j ≤ bs.length ∧
          (ReadDataBlocks cfg orc fuel (some bs) reply env).env.blockCalls =
            env.blockCalls + j) := by
  refine ⟨?_, ?_, ?_⟩
  · intro b rest
    simp only [ReadDataBlocks, blocksLoop]
  · simp only [ReadDataBlocks]
    exact (blocksLoop_spec cfg orc fuel bs reply env).1
  · simp only [ReadDataBlocks]
    exact (blocksLoop_spec cfg orc fuel bs reply env).2

/-- Witness for C4: two blocks against an immediately-successful device
run exactly two per-block exchanges and return true. -/
theorem c4_block_sequencer_witness :
    (ReadDataBlocks cfgD (orcErrCode 0) 5 (some [[1], [2]]) ReplyState.clear
        {}).env.blockCalls = 2 ∧
      (ReadDataBlocks cfgD (orcErrCode 0) 5 (some [[1], [2]]) ReplyState.clear
        {}).okFlag = true := by
  have h := (c4_block_sequencer cfgD (orcErrCode 0) 5 [[1], [2]]
    ReplyState.clear {}).2.1 (by decide)
  exact ⟨h.1, by rw [h.2]; decide⟩

/-- C6: with the assembled decoded value list `values`, `ReadList`
fails with the count-mismatch error whenever `values` has length
different from the request list's length, and when the lengths match it
applies the values to the requested pairs 1:1 in request order via the
codec's `UpdateValues` (the logged application carries exactly the
request list and the assembled values, in order) and returns its
outcome. -/
theorem c6_read_list_count (cfg : Config) (orc : Oracle) (fuel : Nat)
    (list : List (Nat × Nat)) (env : Env) (frames : List (List Nat))
    (values : List Nat) (env1 : Env)
    (hf : orc.rlFrames = .ok frames)
    (hv : readListLoop cfg orc fuel frames ReplyState.clear [] env =
      .ok (values, env1)) :
    (values.length ≠ list.length →
      ReadList cfg orc fuel list env =
        ⟨.err (invalidReplyCountMsg values.length list.length), env1⟩) ∧
    (values.length = list.length →
      ReadList cfg orc fuel list env =
        ⟨(match orc.updValFail with | some m => .err m | none => .ok),
         { env1.log (Action.updateValues list values) with
           updCalls := env1.updCalls + 1 }⟩) := by
  constructor
  · intro hne
    simp [ReadList, hf, hv, hne]
  · intro he
    cases horc : orc.updValFail <;> simp [ReadList, hf, hv, he, horc, Env.log]

/-- Witness for C6: one frame delivering two values against a request
list of one pair fails with the count mismatch; against a request list
of two pairs it succeeds. -/
theorem c6_read_list_count_witness :
    (ReadList cfgD orcList 5 [(1, 2)] {}).out =
        .err (invalidReplyCountMsg 2 1) ∧
      (ReadList cfgD orcList 5 [(1, 2), (3, 4)] {}).out = .ok := by
  constructor
  · rw [(c6_read_list_count cfgD orcList 5 [(1, 2)] {} _ _ _ rfl rfl).1 (by decide)]
    rfl
  · rw [(c6_read_list_count cfgD orcList 5 [(1, 2), (3, 4)] {} _ _ _ rfl rfl).2
      (by decide)]
    rfl

/-- C10: when `ReadList` fails with the count mismatch, the length
check happened before any application: `UpdateValues` was never invoked
during the whole call (the value-application counter is unchanged from
entry). -/
theorem c10_no_apply_on_mismatch (cfg : Config) (orc : Oracle) (fuel : Nat)
    (list : List (Nat × Nat)) (env : Env) (frames : List (List Nat))
    (values : List Nat) (env1 : Env)
    (hf : orc.rlFrames = .ok frames)
    (hv : readListLoop cfg orc fuel frames ReplyState.clear [] env =
      .ok (values, env1))
    (hne : values.length ≠ list.length) :
    ReadList cfg orc fuel list env =
        ⟨.err (invalidReplyCountMsg values.length list.length), env1⟩ ∧
      (ReadList cfg orc fuel list env).env.updCalls = env.updCalls := by
  have h1 : ReadList cfg orc fuel list env =
      ⟨.err (invalidReplyCountMsg values.length list.length), env1⟩ := by
    simp [ReadList, hf, hv, hne]
  refine ⟨h1, ?_⟩
  rw [h1]
  have h2 := readListLoop_upd cfg orc fuel frames ReplyState.clear [] env
  rw [hv] at h2
  simpa [llEnv] using h2

/-- Witness for C10 at the concrete mismatch scenario. -/
theorem c10_no_apply_on_mismatch_witness :
    (ReadList cfgD orcList 5 [(1, 2)] {}).env.updCalls = 0 :=
  (c10_no_apply_on_mismatch cfgD orcList 5 [(1, 2)] {} _ _ _ rfl rfl
    (by decide)).2

end GxReader
